import Mathlib

set_option maxRecDepth 100000

/-!
Verification of the AI Auto News Python SDK (`ai_auto_news/__init__.py`).

A shallow embedding of the SDK's request pipeline (`AIAutoNewsSDK._request`),
its resource-module parameter marshalling (`Posts`, `Generation`, `Analytics`,
`Subscriptions`, `APIKeys`, `Webhooks`), and the webhook signature check
(`AIAutoNewsSDK.verify_webhook_signature`, built on HMAC-SHA256).

Conventions of the embedding:
* Parsed JSON values (the result of `response.json()`) are modelled by `Json`;
  `Json.null` plays the role of Python `None` (which is what `json.loads`
  returns for a JSON `null`).
* Python exceptions that can reach a caller of the SDK are modelled by `PyExc`.
  `AIAutoNewsException` is one constructor; built-in `ValueError`,
  `AttributeError` and `TypeError` (all of which the source can raise) are the
  others.
* The network is an environment: attempt `i` of the retry loop observes
  `outcomes i`, which is either a raised `requests.RequestException` or an
  HTTP response.  A response carries its status code, reason phrase, whether
  `response.content` is empty, the result of parsing its body as JSON
  (`Except` the JSON decode error message), and its headers.
* `requests` semantics modelled: `response.ok` iff `status < 400`;
  `response.json()` on a malformed body raises
  `requests.exceptions.JSONDecodeError`, which is a `RequestException`
  (so it is caught by the retry loop) whose `response` attribute is `None`;
  header lookup is case-insensitive.
* `AIAutoNewsException` is NOT a `requests.RequestException`, so raising it
  inside the `try` block escapes `_request` immediately.
-/

/-- Parsed JSON values, as returned by `response.json()`.  `null` is Python
`None`.  Objects are association lists with distinct keys (Python dicts). -/
inductive Json where
  | null : Json
  | bool (b : Bool) : Json
  | num (n : Int) : Json
  | str (s : String) : Json
  | arr (elems : List Json) : Json
  | obj (fields : List (String × Json)) : Json

/-- A `requests.RequestException` raised by `session.request` itself
(connection error, timeout, ...).  Its `response` attribute holds the status
code of an attached response, when there is one. -/
structure TransportExc where
  msg : String
  responseStatus : Option Nat

/-- An error caught by the `except requests.exceptions.RequestException`
handler of `_request`: either a transport-level exception from
`session.request`, or the `requests.exceptions.JSONDecodeError` raised by
`response.json()` on a malformed body (its `response` attribute is `None`). -/
inductive CaughtErr where
  | transport (msg : String) (responseStatus : Option Nat)
  | jsonDecode (msg : String)

/-- Python `str(e)` on a caught `RequestException`. -/
def CaughtErr.toStr : CaughtErr → String
  | .transport msg _ => msg
  | .jsonDecode msg => msg

/-- The `details` field of an `AIAutoNewsException`: either a JSON value taken
from the response body (`Json.null` for Python `None`), or the caught
`RequestException` object stored in `last_error`. -/
inductive ErrDetails where
  | fromJson (j : Json)
  | fromExc (e : CaughtErr)

/-- The payload of an `AIAutoNewsException` (the SDK's single error type).
`message` and `code` are JSON values because the server-supplied `error`
object may carry non-string values for them. -/
structure ClientErrorData where
  message : Json
  code : Json
  details : ErrDetails

/-- A Python exception escaping an SDK call, as observable by the caller. -/
inductive PyExc where
  /-- `AIAutoNewsException` -/
  | clientError (e : ClientErrorData)
  /-- built-in `ValueError` (e.g. from `int()` on a non-integer string) -/
  | valueError (msg : String)
  /-- built-in `AttributeError` (e.g. `.get` on a non-dict) -/
  | attributeError (msg : String)
  /-- built-in `TypeError` (e.g. `Post(**d)` with wrong keys,
  `hmac.compare_digest` on non-ASCII strings) -/
  | typeError (msg : String)

/-- Is this exception the SDK's own `AIAutoNewsException`? -/
def PyExc.isClientError : PyExc → Bool
  | .clientError _ => true
  | _ => false

/-- An HTTP response as seen by one attempt of the retry loop. -/
structure HTTPResponse where
  status : Nat
  reason : String
  /-- `response.content` is empty (falsy) -/
  contentEmpty : Bool
  /-- result of parsing the body as JSON; `.error m` models
  `response.json()` raising `requests.exceptions.JSONDecodeError` with
  message `m`.  Only consulted when `contentEmpty = false`. -/
  jsonBody : Except String Json
  /-- response headers (requests gives case-insensitive lookup) -/
  headers : List (String × String)

/-- What one call of `session.request` produces: a raised
`RequestException`, or a response. -/
inductive AttemptOutcome where
  | exc (e : TransportExc)
  | resp (r : HTTPResponse)

/-- The `APIResponse` dataclass.  All fields but `success` default to
`None`. -/
structure RateLimitMeta where
  remaining : Int
  reset : String

structure ResponseMeta where
  request_id : String
  rate_limit : RateLimitMeta

structure APIResponse where
  success : Bool
  data : Option Json := none
  error : Option Json := none
  metadata : Option ResponseMeta := none

/-- Python `d.get(key, default)` on the result `d` of `json.loads`: raises
`AttributeError` unless `d` is a dict; returns the stored value (which may be
`Json.null`, i.e. Python `None`) when the key is present, else `default`. -/
def pyGet (d : Json) (key : String) (default : Json) : Except PyExc Json :=
  match d with
  | .obj fields =>
    match fields.find? (fun p => p.1 == key) with
    | some p => .ok p.2
    | none => .ok default
  | _ => .error (.attributeError ("object has no attribute " ++ "get"))

/-- Python `str.lower()` restricted to ASCII letters (header names are ASCII). -/
def lowerChars (s : String) : List Char := s.data.map Char.toLower

/-- Case-insensitive header lookup, as `response.headers.get(k)`. -/
def headerGet (headers : List (String × String)) (key : String) : Option String :=
  (headers.find? (fun p => lowerChars p.1 == lowerChars key)).map (·.2)

/-- Digit run of Python `int(str)`: a nonempty digit sequence in which a
single underscore may separate two digits. -/
def pyIntDigits (acc : Nat) : List Char → Option Nat
  | [] => some acc
  | '_' :: c :: cs =>
    if c.isDigit then pyIntDigits (acc * 10 + (c.toNat - 48)) cs else none
  | c :: cs =>
    if c.isDigit then pyIntDigits (acc * 10 + (c.toNat - 48)) cs else none

/-- Python `str.strip()`: drop surrounding whitespace characters. -/
def stripChars (cs : List Char) : List Char :=
  ((cs.dropWhile Char.isWhitespace).reverse.dropWhile Char.isWhitespace).reverse

/-- An ASCII single-quote character, as a string. -/
def singleQuote : String := String.singleton (Char.ofNat 39)

/-- The message of the `ValueError` that `int(s)` raises: it quotes `s`. -/
def pyIntErrMsg (s : String) : String :=
  "invalid literal for int() with base 10: " ++ singleQuote ++ s ++ singleQuote

/-- Python `int(s)` for a string `s` (base 10, ASCII): optional surrounding
whitespace, optional sign, digits with optional single underscores between
them.  Raises `ValueError` otherwise. -/
def pyInt (s : String) : Except PyExc Int :=
  let err : Except PyExc Int :=
    .error (.valueError (pyIntErrMsg s))
  match stripChars s.data with
  | '-' :: c :: cs =>
    if c.isDigit then
      match pyIntDigits (c.toNat - 48) cs with
      | some n => .ok (-(n : Int))
      | none => err
    else err
  | '+' :: c :: cs =>
    if c.isDigit then
      match pyIntDigits (c.toNat - 48) cs with
      | some n => .ok (n : Int)
      | none => err
    else err
  | c :: cs =>
    if c.isDigit then
      match pyIntDigits (c.toNat - 48) cs with
      | some n => .ok (n : Int)
      | none => err
    else err
  | [] => err

/-- What the body of the `try` block does with one attempt's outcome. -/
inductive AttemptStep where
  /-- `return APIResponse(...)` -/
  | success (r : APIResponse)
  /-- a `RequestException` was raised and is caught by the `except` handler -/
  | caught (e : CaughtErr)
  /-- an exception not matching `requests.exceptions.RequestException`
  (in particular `AIAutoNewsException`, `ValueError`, `AttributeError`)
  propagates out of `_request` at once -/
  | escape (e : PyExc)

/-- Models `data = response.json() if response.content else \x7b\x7d` (an empty
dict for an empty body). -/
def parsedData (r : HTTPResponse) : Except String Json :=
  if r.contentEmpty then .ok (.obj []) else r.jsonBody

/-- The `remaining` metadata: `int(response.headers.get("x-ratelimit-remaining", 0))`.
When the header is missing the default is the Python int `0`, so `int`
succeeds with `0`; when present, `int` parses the header string. -/
def rateLimitRemaining (headers : List (String × String)) : Except PyExc Int :=
  match headerGet headers "x-ratelimit-remaining" with
  | none => .ok 0
  | some s => pyInt s

/-- One iteration of the `try` block of `AIAutoNewsSDK._request`, for a given
outcome of `session.request`. -/
def runAttempt (o : AttemptOutcome) : AttemptStep :=
  match o with
  | .exc e => .caught (.transport e.msg e.responseStatus)
  | .resp r =>
    match parsedData r with
    | .error m => .caught (.jsonDecode m)
    | .ok data =>
      if r.status < 400 then
        -- response.ok: build and return the envelope
        match pyGet data "data" data with
        | .error e => .escape e
        | .ok d =>
          match rateLimitRemaining r.headers with
          | .error e => .escape e
          | .ok rem =>
            .success
              { success := true
                data := some d
                metadata := some
                  { request_id := (headerGet r.headers "x-request-id").getD ""
                    rate_limit :=
                      { remaining := rem
                        reset := (headerGet r.headers "x-ratelimit-reset").getD "" } } }
      else
        -- not response.ok: raise AIAutoNewsException (escapes: it is not a
        -- requests.RequestException)
        match pyGet data "error" (.obj []) with
        | .error e => .escape e
        | .ok errObj =>
          match pyGet errObj "message" (.str r.reason) with
          | .error e => .escape e
          | .ok msg =>
            match pyGet errObj "code" (.str "request_failed") with
            | .error e => .escape e
            | .ok code =>
              match pyGet errObj "details" .null with
              | .error e => .escape e
              | .ok det =>
                .escape (.clientError
                  { message := msg, code := code, details := .fromJson det })

/-- The 4xx short-circuit of the `except` handler:
`hasattr(e, "response") and e.response is not None and
400 <= e.response.status_code < 500`. -/
def breakCond (e : CaughtErr) : Bool :=
  match e with
  | .transport _ (some st) => 400 ≤ st && st < 500
  | _ => false

/-- The `raise AIAutoNewsException(...)` after the loop:
`message=str(last_error)`, `code="request_failed"`, `details=last_error`.
`str(None) = "None"`. -/
def finalError (last : Option CaughtErr) : PyExc :=
  .clientError
    { message := .str (match last with | none => "None" | some e => e.toStr)
      code := .str "request_failed"
      details := match last with | none => .fromJson .null | some e => .fromExc e }

/-- Observable result of a `_request` call: the returned envelope or the
escaping exception, together with the number of attempts performed and the
list of back-off sleeps (in seconds, in order). -/
structure RunResult where
  result : Except PyExc APIResponse
  attempts : Nat
  sleeps : List Nat

/-- The retry loop `for attempt in range(retries)` of `_request`.
`attempt` is the index of the next iteration, `fuel` the number of
iterations left (`retries - attempt`). -/
def requestGo (retries : Nat) (outcomes : Nat → AttemptOutcome) :
    Nat → Nat → Option CaughtErr → List Nat → RunResult
  | attempt, 0, last, sleeps => ⟨.error (finalError last), attempt, sleeps⟩
  | attempt, fuel + 1, _last, sleeps =>
    match runAttempt (outcomes attempt) with
    | .success r => ⟨.ok r, attempt + 1, sleeps⟩
    | .escape e => ⟨.error e, attempt + 1, sleeps⟩
    | .caught e =>
      if breakCond e then
        -- break: fall through to the final raise with last_error = e
        ⟨.error (finalError (some e)), attempt + 1, sleeps⟩
      else
        requestGo retries outcomes (attempt + 1) fuel (some e)
          (if attempt < retries - 1 then sleeps ++ [2 ^ attempt] else sleeps)

/-- Models `AIAutoNewsSDK._request` with `config.retries = retries`, run against an
environment in which attempt `i` observes `outcomes i`. -/
def runRequest (retries : Nat) (outcomes : Nat → AttemptOutcome) : RunResult :=
  requestGo retries outcomes 0 retries none []

/-! ## Resource modules: parameter/body marshalling

Python truthiness drives the `if` guards in the source: `if category:` drops
both `None` and `""`; `if target_length:` drops both `None` and `0`;
`if urgency:` only drops `None` (Enum members are always truthy);
`if published is not None:` keeps `False`.  Dict literals preserve insertion
order, so params/bodies are association lists in source order. -/

/-- The `ContentType` enum. -/
inductive ContentType where
  | BLOG
  | NEWS

/-- The wire value of a `ContentType` member. -/
def ContentType.value : ContentType → String
  | .BLOG => "blog"
  | .NEWS => "news"

/-- The `Urgency` enum. -/
inductive Urgency where
  | LOW
  | MEDIUM
  | HIGH
  | BREAKING

/-- The wire value of an `Urgency` member. -/
def Urgency.value : Urgency → String
  | .LOW => "low"
  | .MEDIUM => "medium"
  | .HIGH => "high"
  | .BREAKING => "breaking"

/-- Python truthiness of an `Optional[str]`: `None` and `""` are falsy. -/
def truthyStr : Option String → Bool
  | none => false
  | some s => !(s == "")

/-- Python truthiness of an `Optional[int]`: `None` and `0` are falsy. -/
def truthyInt : Option Int → Bool
  | none => false
  | some n => !(n == 0)

/-- Python truthiness of an `Optional[List[str]]`: `None` and `[]` are
falsy. -/
def truthyList : Option (List String) → Bool
  | none => false
  | some l => !l.isEmpty

/-- Models `Posts.list`: the `params` dict passed to `_request`. -/
def postsListParams (page limit : Int) (category : Option String)
    (published : Option Bool) : List (String × Json) :=
  [("page", .num page), ("limit", .num limit)]
    ++ (if truthyStr category then [("category", .str (category.getD ""))] else [])
    ++ (match published with
        | some b => [("published", .bool b)]
        | none => [])

/-- Models `Posts.search`: the `params` dict passed to `_request`. -/
def postsSearchParams (query : String) (limit : Int)
    (category : Option String) : List (String × Json) :=
  [("q", .str query), ("limit", .num limit)]
    ++ (if truthyStr category then [("category", .str (category.getD ""))] else [])

/-- Models `Generation.create`: the `body` dict passed to `_request`. -/
def generationCreateBody (topic : String) (content_type : ContentType)
    (urgency : Option Urgency) (target_length : Option Int)
    (tone audience : Option String) : List (String × Json) :=
  [("topic", .str topic), ("type", .str content_type.value)]
    ++ (match urgency with
        | some u => [("urgency", .str u.value)]
        | none => [])
    ++ (if truthyInt target_length then
          [("targetLength", .num (target_length.getD 0))] else [])
    ++ (if truthyStr tone then [("tone", .str (tone.getD ""))] else [])
    ++ (if truthyStr audience then [("audience", .str (audience.getD ""))] else [])

/-- Models `Analytics.usage`: the `params` dict passed to `_request`. -/
def analyticsUsageParams (start «end» metric : Option String) :
    List (String × Json) :=
  (if truthyStr start then [("start", .str (start.getD ""))] else [])
    ++ (if truthyStr «end» then [("end", .str («end».getD ""))] else [])
    ++ (if truthyStr metric then [("metric", .str (metric.getD ""))] else [])

/-- Models `Subscriptions.upgrade`: the `body` dict passed to `_request`. -/
def subscriptionsUpgradeBody (tier : String) : List (String × Json) :=
  [("tier", .str tier)]

/-- Models `APIKeys.create`: the `body` dict passed to `_request`. -/
def apiKeysCreateBody (name : String) (scopes : Option (List String))
    (expires_at : Option String) : List (String × Json) :=
  [("name", .str name)]
    ++ (if truthyList scopes then
          [("scopes", .arr ((scopes.getD []).map Json.str))] else [])
    ++ (if truthyStr expires_at then
          [("expiresAt", .str (expires_at.getD ""))] else [])

/-- Models `Webhooks.create`: the `body` dict passed to `_request`. -/
def webhooksCreateBody (url : String) (events : List String)
    (secret : Option String) : List (String × Json) :=
  [("url", .str url), ("events", .arr (events.map Json.str))]
    ++ (if truthyStr secret then [("secret", .str (secret.getD ""))] else [])

/-! ## Resource modules: unwrapping `Envelope.data` -/

/-- The `Post` dataclass.  Python dataclasses do not check annotation types at
runtime, so every field holds whatever value the keyword argument carried;
`metadata` defaults to `None`. -/
structure Post where
  id : Json
  title : Json
  content : Json
  category : Json
  slug : Json
  published : Json
  created_at : Json
  metadata : Json := .null

/-- The required (no-default) field names of `Post`, in declaration order. -/
def postRequiredFields : List String :=
  ["id", "title", "content", "category", "slug", "published", "created_at"]

/-- Models `Post(**d)`: `d` must be a dict; a missing required key or an unexpected
key raises `TypeError`; extra type checking does not happen. -/
def postFromDict (d : Json) : Except PyExc Post :=
  match d with
  | .obj fields =>
    let keys := fields.map (·.1)
    if postRequiredFields.all (fun k => keys.contains k) then
      if keys.all (fun k => k ∈ postRequiredFields ++ ["metadata"]) then
        let get := fun k => ((fields.find? (fun p => p.1 == k)).map (·.2)).getD .null
        .ok
          { id := get "id", title := get "title", content := get "content"
            category := get "category", slug := get "slug"
            published := get "published", created_at := get "created_at"
            metadata := get "metadata" }
      else .error (.typeError "got an unexpected keyword argument")
    else .error (.typeError "missing required positional arguments")
  | _ => .error (.typeError "argument after ** must be a mapping")

/-- Models `[Post(**post) for post in response.data]`: the data must be a list of
dicts; iterating any other parsed-JSON value ends in a `TypeError` (a number
is not iterable; iterating a dict yields its string keys and a string yields
characters, and `Post(**s)` on a string raises `TypeError`). -/
def postsFromData : Option Json → Except PyExc (List Post)
  | some (.arr elems) => elems.mapM postFromDict
  | _ => .error (.typeError "argument after ** must be a mapping")

/-- Models `Posts.get(id_or_slug)` as a function of the run of `_request`:
propagate any executor exception unchanged, else `Post(**response.data)`. -/
def postsGetCall (retries : Nat) (outcomes : Nat → AttemptOutcome) :
    Except PyExc Post :=
  match (runRequest retries outcomes).result with
  | .error e => .error e
  | .ok resp => postFromDict (resp.data.getD .null)

/-- Models `Posts.list(...)` as a function of the run of `_request`. -/
def postsListCall (retries : Nat) (outcomes : Nat → AttemptOutcome) :
    Except PyExc (List Post) :=
  match (runRequest retries outcomes).result with
  | .error e => .error e
  | .ok resp => postsFromData resp.data

/-- Models `Generation.create(...)` unwrapping (`Post(**response.data)`), as a
function of the run of `_request`. -/
def generationCreateCall (retries : Nat) (outcomes : Nat → AttemptOutcome) :
    Except PyExc Post :=
  match (runRequest retries outcomes).result with
  | .error e => .error e
  | .ok resp => postFromDict (resp.data.getD .null)

/-- Models `Generation.status` / `Analytics.usage` / `Analytics.metrics` /
`Subscriptions.*` / `APIKeys.*` / `Webhooks.*`: these return
`response.data` unchanged (or nothing), so the call result is exactly the
executor's. -/
def passthroughCall (retries : Nat) (outcomes : Nat → AttemptOutcome) :
    Except PyExc (Option Json) :=
  match (runRequest retries outcomes).result with
  | .error e => .error e
  | .ok resp => .ok resp.data

/-! ## Webhook signature verification

`verify_webhook_signature` calls `hmac.new(secret.encode(), payload.encode(),
hashlib.sha256).hexdigest()` and `hmac.compare_digest`.  Those are standard
library routines; they are embedded here from their specifications:
SHA-256 per FIPS 180-4, HMAC per RFC 2104, UTF-8 for `str.encode()`, and
`hmac.compare_digest`, which for `str` arguments requires both to be ASCII
(raising `TypeError` otherwise) and then compares for equality
(constant-time in the implementation; timing is not modelled). -/

/-- The modulus 2^32 of SHA-256 word arithmetic. -/
def M32 : Nat := 4294967296

/-- Right rotation of a 32-bit word by `n` bits. -/
def rotr32 (n x : Nat) : Nat :=
  ((x >>> n) ||| (x <<< (32 - n))) % M32

/-- SHA-256 `Σ0`. -/
def bigSigma0 (x : Nat) : Nat := (rotr32 2 x) ^^^ (rotr32 13 x) ^^^ (rotr32 22 x)

/-- SHA-256 `Σ1`. -/
def bigSigma1 (x : Nat) : Nat := (rotr32 6 x) ^^^ (rotr32 11 x) ^^^ (rotr32 25 x)

/-- SHA-256 `σ0`. -/
def smallSigma0 (x : Nat) : Nat := (rotr32 7 x) ^^^ (rotr32 18 x) ^^^ (x >>> 3)

/-- SHA-256 `σ1`. -/
def smallSigma1 (x : Nat) : Nat := (rotr32 17 x) ^^^ (rotr32 19 x) ^^^ (x >>> 10)

/-- SHA-256 `Ch`. -/
def sha256Ch (x y z : Nat) : Nat := (x &&& y) ^^^ ((x ^^^ (M32 - 1)) &&& z)

/-- SHA-256 `Maj`. -/
def sha256Maj (x y z : Nat) : Nat := (x &&& y) ^^^ (x &&& z) ^^^ (y &&& z)

/-- The 64 SHA-256 round constants of FIPS 180-4 (decimal). -/
def sha256K : List Nat :=
  [1116352408, 1899447441, 3049323471, 3921009573, 961987163,
   1508970993, 2453635748, 2870763221, 3624381080, 310598401,
   607225278, 1426881987, 1925078388, 2162078206, 2614888103,
   3248222580, 3835390401, 4022224774, 264347078, 604807628,
   770255983, 1249150122, 1555081692, 1996064986, 2554220882,
   2821834349, 2952996808, 3210313671, 3336571891, 3584528711,
   113926993, 338241895, 666307205, 773529912, 1294757372,
   1396182291, 1695183700, 1986661051, 2177026350, 2456956037,
   2730485921, 2820302411, 3259730800, 3345764771, 3516065817,
   3600352804, 4094571909, 275423344, 430227734, 506948616,
   659060556, 883997877, 958139571, 1322822218, 1537002063,
   1747873779, 1955562222, 2024104815, 2227730452, 2361852424,
   2428436474, 2756734187, 3204031479, 3329325298]

/-- The SHA-256 initial hash value of FIPS 180-4 (decimal). -/
def sha256H0 : List Nat :=
  [1779033703, 3144134277, 1013904242, 2773480762,
   1359893119, 2600822924, 528734635, 1541459225]

/-- Big-endian bytes of `v`, `nbytes` wide. -/
def beBytes (nbytes v : Nat) : List Nat :=
  (List.range nbytes).map (fun i => (v >>> (8 * (nbytes - 1 - i))) % 256)

/-- Group a byte list into 32-bit big-endian words (`fuel` bounds the
recursion; callers pass the list length). -/
def bytesToWords : Nat → List Nat → List Nat
  | 0, _ => []
  | _ + 1, [] => []
  | fuel + 1, l =>
    ((l.take 4).foldl (fun acc b => acc * 256 + b) 0) :: bytesToWords fuel (l.drop 4)

/-- Split a byte list into 64-byte blocks (`fuel` bounds the recursion). -/
def toBlocks : Nat → List Nat → List (List Nat)
  | 0, _ => []
  | _ + 1, [] => []
  | fuel + 1, l => l.take 64 :: toBlocks fuel (l.drop 64)

/-- SHA-256 message padding: append `0x80`, zeros to 56 mod 64, and the
bit length as 8 big-endian bytes. -/
def sha256Pad (msg : List Nat) : List Nat :=
  let len := msg.length
  let zeros := (64 + 56 - ((len + 1) % 64)) % 64
  msg ++ [0x80] ++ List.replicate zeros 0 ++ beBytes 8 (len * 8)

/-- Extend the 16 block words to the 64-entry message schedule.  The list is
kept reversed (most recent word first) so that `w[t-2]`, `w[t-7]`,
`w[t-15]`, `w[t-16]` are positions 1, 6, 14, 15. -/
def sha256Extend : Nat → List Nat → List Nat
  | 0, rw => rw
  | n + 1, rw =>
    sha256Extend n
      (((smallSigma1 (rw.getD 1 0) + rw.getD 6 0 + smallSigma0 (rw.getD 14 0)
          + rw.getD 15 0) % M32) :: rw)

/-- The message schedule `w[0..63]` of one block. -/
def sha256Schedule (block : List Nat) : List Nat :=
  (sha256Extend 48 (bytesToWords 64 block).reverse).reverse

/-- One SHA-256 round: state is `[a, b, c, d, e, f, g, h]`. -/
def sha256Round (st : List Nat) (kw : Nat × Nat) : List Nat :=
  match st with
  | [a, b, c, d, e, f, g, h] =>
    let t1 := (h + bigSigma1 e + sha256Ch e f g + kw.1 + kw.2) % M32
    let t2 := (bigSigma0 a + sha256Maj a b c) % M32
    [(t1 + t2) % M32, a, b, c, (d + t1) % M32, e, f, g]
  | _ => st

/-- SHA-256 compression of one 64-byte block into the hash state. -/
def sha256Compress (h : List Nat) (block : List Nat) : List Nat :=
  let st := (sha256K.zip (sha256Schedule block)).foldl sha256Round h
  (h.zip st).map (fun p => (p.1 + p.2) % M32)

/-- SHA-256 of a byte list, as 32 bytes. -/
def sha256 (msg : List Nat) : List Nat :=
  let padded := sha256Pad msg
  let h := (toBlocks padded.length padded).foldl sha256Compress sha256H0
  h.flatMap (beBytes 4)

/-- HMAC-SHA256 (RFC 2104): digest of `msg` keyed by `key`, as 32 bytes. -/
def hmacSha256 (key msg : List Nat) : List Nat :=
  let k0 := if 64 < key.length then sha256 key else key
  let k := k0 ++ List.replicate (64 - k0.length) 0
  let ipad := k.map (fun b => b ^^^ 0x36)
  let opad := k.map (fun b => b ^^^ 0x5c)
  sha256 (opad ++ sha256 (ipad ++ msg))

/-- Lower-case hex digit. -/
def hexChar (n : Nat) : Char :=
  if n < 10 then Char.ofNat (48 + n) else Char.ofNat (87 + n)

/-- Python `.hexdigest()`: lower-case hex encoding of a byte list. -/
def hexDigest (bytes : List Nat) : String :=
  String.mk (bytes.flatMap (fun b => [hexChar (b / 16), hexChar (b % 16)]))

/-- UTF-8 encoding of one code point (`str.encode()` on one character). -/
def utf8Char (c : Char) : List Nat :=
  let n := c.toNat
  if n < 0x80 then [n]
  else if n < 0x800 then
    [0xc0 ||| (n >>> 6), 0x80 ||| (n &&& 0x3f)]
  else if n < 0x10000 then
    [0xe0 ||| (n >>> 12), 0x80 ||| ((n >>> 6) &&& 0x3f), 0x80 ||| (n &&& 0x3f)]
  else
    [0xf0 ||| (n >>> 18), 0x80 ||| ((n >>> 12) &&& 0x3f),
     0x80 ||| ((n >>> 6) &&& 0x3f), 0x80 ||| (n &&& 0x3f)]

/-- Python `s.encode()`: UTF-8 bytes of a Python string. -/
def utf8Encode (s : String) : List Nat := s.data.flatMap utf8Char

/-- A Python string is ASCII when all its code points are below 128. -/
def isAsciiString (s : String) : Bool := s.data.all (fun c => c.toNat < 128)

/-- Python `hmac.compare_digest(a, b)` for `str` arguments: both must be ASCII,
otherwise `TypeError`; for ASCII inputs it returns whether they are equal
(computed in constant time, which a pure embedding need not model). -/
def compareDigest (a b : String) : Except PyExc Bool :=
  if isAsciiString a && isAsciiString b then .ok (a == b)
  else .error (.typeError "comparing strings with non-ASCII characters is not supported")

/-- The hex HMAC-SHA256 digest `verify_webhook_signature` computes as
`expected`. -/
def expectedSignature (payload secret : String) : String :=
  hexDigest (hmacSha256 (utf8Encode secret) (utf8Encode payload))

/-- Models `AIAutoNewsSDK.verify_webhook_signature(payload, signature, secret)`.
The result is `Except` because `hmac.compare_digest` raises `TypeError`
when `signature` contains a non-ASCII character. -/
def verify_webhook_signature (payload signature secret : String) :
    Except PyExc Bool :=
  compareDigest signature (expectedSignature payload secret)
/-! ## Shared lemmas about the retry loop -/

/-- If the first attempt's `try` block raises a non-`RequestException`
(`AIAutoNewsException`, `ValueError`, `AttributeError`), `_request`
propagates it after exactly one attempt, with no sleeps. -/
theorem runRequest_escape (retries : Nat) (outcomes : Nat → AttemptOutcome)
    (e : PyExc) (h1 : 1 ≤ retries) (h : runAttempt (outcomes 0) = .escape e) :
    runRequest retries outcomes = ⟨.error e, 1, []⟩ := by
  obtain ⟨n, rfl⟩ := Nat.exists_eq_add_of_le h1
  rw [Nat.add_comm] at *
  unfold runRequest requestGo
  rw [h]

/-- If the first attempt's `try` block returns an envelope, `_request`
returns it after exactly one attempt, with no sleeps. -/
theorem runRequest_success (retries : Nat) (outcomes : Nat → AttemptOutcome)
    (r : APIResponse) (h1 : 1 ≤ retries) (h : runAttempt (outcomes 0) = .success r) :
    runRequest retries outcomes = ⟨.ok r, 1, []⟩ := by
  obtain ⟨n, rfl⟩ := Nat.exists_eq_add_of_le h1
  rw [Nat.add_comm] at *
  unfold runRequest requestGo
  rw [h]

/-- The classification a retry-loop iteration gives an attempt outcome:
`some e` when the `try` block raises a `RequestException` `e` that is caught
and does not trigger the 4xx `break`. -/
def attemptCaughtNoBreak (o : AttemptOutcome) : Option CaughtErr :=
  match runAttempt o with
  | .caught e => if breakCond e then none else some e
  | _ => none

theorem attemptCaughtNoBreak_eq_some {o : AttemptOutcome} {e : CaughtErr}
    (h : attemptCaughtNoBreak o = some e) :
    runAttempt o = .caught e ∧ breakCond e = false := by
  unfold attemptCaughtNoBreak at h
  cases h' : runAttempt o with
  | success r => rw [h'] at h; simp at h
  | escape e' => rw [h'] at h; simp at h
  | caught e' =>
    rw [h'] at h
    by_cases hb : breakCond e'
    · simp [hb] at h
    · simp [hb] at h
      subst h
      exact ⟨rfl, by simpa using hb⟩

/-- When every remaining iteration catches a no-`break` `RequestException`,
the loop exhausts and the final `raise` fires with `last_error` the error of
the last attempt. -/
theorem requestGo_exhaust (retries : Nat) (outcomes : Nat → AttemptOutcome) :
    ∀ (k attempt : Nat) (last : Option CaughtErr) (sleeps : List Nat) (e : CaughtErr),
      attemptCaughtNoBreak (outcomes (attempt + k)) = some e →
      (∀ i, i ≤ k → (attemptCaughtNoBreak (outcomes (attempt + i))).isSome) →
      (requestGo retries outcomes attempt (k + 1) last sleeps).result
        = .error (finalError (some e)) := by
  intro k
  induction k with
  | zero =>
    intro attempt last sleeps e hlast _
    rw [Nat.add_zero] at hlast
    obtain ⟨h1, h2⟩ := attemptCaughtNoBreak_eq_some hlast
    unfold requestGo
    rw [h1]
    simp [h2, requestGo]
  | succ k ih =>
    intro attempt last sleeps e hlast hall
    have h0 := hall 0 (Nat.zero_le _)
    rw [Nat.add_zero] at h0
    obtain ⟨e0, he0⟩ := Option.isSome_iff_exists.mp h0
    obtain ⟨h1, h2⟩ := attemptCaughtNoBreak_eq_some he0
    unfold requestGo
    rw [h1]
    simp only [h2, Bool.false_eq_true, if_false]
    have hlast' : attemptCaughtNoBreak (outcomes (attempt + 1 + k)) = some e := by
      rw [show attempt + 1 + k = attempt + (k + 1) by omega]; exact hlast
    have hall' : ∀ i, i ≤ k → (attemptCaughtNoBreak (outcomes (attempt + 1 + i))).isSome := by
      intro i hi
      rw [show attempt + 1 + i = attempt + (i + 1) by omega]
      exact hall (i + 1) (by omega)
    exact ih (attempt + 1) (some e0) _ e hlast' hall'

/-- The body `{"error":{"code":"not_found","message":"missing"}}`. -/
def notFoundBody : Json :=
  .obj [("error", .obj [("code", .str "not_found"), ("message", .str "missing")])]

/-- The `AIAutoNewsException` payload raised for `notFoundBody`. -/
def notFoundErr : ClientErrorData :=
  { message := .str "missing", code := .str "not_found", details := .fromJson .null }

theorem runAttempt_notFound (st : Nat) (reason : String)
    (hs : List (String × String)) (h : ¬ st < 400) :
    runAttempt (.resp ⟨st, reason, false, .ok notFoundBody, hs⟩)
      = .escape (.clientError notFoundErr) := by
  unfold runAttempt
  simp [parsedData, h, pyGet, notFoundBody, notFoundErr]

/-- C3: a response whose first attempt yields an HTTP 4xx status with body
`{"error":{"code":"not_found","message":"missing"}}` makes `_request` raise
`AIAutoNewsException(message="missing", code="not_found")` after exactly one
attempt and no back-off sleep, for every configured `retries ≥ 1`. -/
theorem client_error_single_attempt (retries : Nat)
    (outcomes : Nat → AttemptOutcome) (st : Nat) (reason : String)
    (hs : List (String × String)) (h1 : 1 ≤ retries) (h4 : 400 ≤ st)
    (h5 : st < 500)
    (h0 : outcomes 0 = .resp ⟨st, reason, false, .ok notFoundBody, hs⟩) :
    runRequest retries outcomes
      = ⟨.error (.clientError notFoundErr), 1, []⟩ := by
  apply runRequest_escape retries outcomes _ h1
  rw [h0]
  exact runAttempt_notFound st reason hs (by omega)

theorem client_error_single_attempt_witness :
    runRequest 5 (fun _ => .resp ⟨404, "Not Found", false, .ok notFoundBody, []⟩)
      = ⟨.error (.clientError notFoundErr), 1, []⟩ :=
  client_error_single_attempt 5 _ 404 "Not Found" [] (by decide) (by decide)
    (by decide) rfl

/-- C1: the code contradicts the claim: with `retries = 3` and every attempt
receiving an HTTP 503 response (empty body), `_request` performs exactly one
attempt and no sleeps — the `AIAutoNewsException` raised for the non-ok
response is not a `requests.RequestException`, so the retry loop never sees
it — instead of the claimed 3 attempts with sleeps `[1, 2]`. -/
theorem server_error_not_retried :
    runRequest 3 (fun _ => .resp ⟨503, "Service Unavailable", true, .ok .null, []⟩)
      = ⟨.error (.clientError
          { message := .str "Service Unavailable", code := .str "request_failed"
            details := .fromJson .null }), 1, []⟩ := rfl

/-- Exhaustion of the retry loop, phrased for `runRequest`: when every
attempt catches a no-`break` `RequestException`, the final `raise` fires
with the fields built from the last attempt's error. -/
theorem runRequest_exhaust (retries : Nat)
    (outcomes : Nat → AttemptOutcome) (e : CaughtErr) (h1 : 1 ≤ retries)
    (hall : ∀ i, i < retries → (attemptCaughtNoBreak (outcomes i)).isSome)
    (hlast : attemptCaughtNoBreak (outcomes (retries - 1)) = some e) :
    (runRequest retries outcomes).result
      = .error (.clientError
          { message := .str e.toStr, code := .str "request_failed"
            details := .fromExc e }) := by
  obtain ⟨n, rfl⟩ := Nat.exists_eq_add_of_le h1
  rw [Nat.add_comm] at *
  unfold runRequest
  exact requestGo_exhaust (n + 1) outcomes n 0 none [] e
    (by simpa using hlast)
    (fun i hi => by simpa using hall i (by omega))

/-- C6: when every attempt catches a `RequestException` that does not trigger
the 4xx break, the loop exhausts and `_request` raises
`AIAutoNewsException(message=str(last_error), code="request_failed",
details=last_error)` where `last_error` is the last attempt's error. -/
theorem exhausted_retries_error (retries : Nat)
    (outcomes : Nat → AttemptOutcome) (e : CaughtErr) (h1 : 1 ≤ retries)
    (hall : ∀ i, i < retries → (attemptCaughtNoBreak (outcomes i)).isSome)
    (hlast : attemptCaughtNoBreak (outcomes (retries - 1)) = some e) :
    (runRequest retries outcomes).result
      = .error (.clientError
          { message := .str e.toStr, code := .str "request_failed"
            details := .fromExc e }) :=
  runRequest_exhaust retries outcomes e h1 hall hlast

theorem exhausted_retries_error_witness :
    (runRequest 2 (fun _ => .exc ⟨"Connection reset", none⟩)).result
      = .error (.clientError
          { message := .str "Connection reset", code := .str "request_failed"
            details := .fromExc (.transport "Connection reset" none) }) :=
  exhausted_retries_error 2 _ (.transport "Connection reset" none)
    (by decide) (fun i _ => rfl) rfl

/-- The `code` of the `AIAutoNewsException` a run raises, when it raises
one. -/
def raisedCode : Except PyExc APIResponse → Option Json
  | .error (.clientError e) => some e.code
  | _ => none

/-- A 200 response whose non-empty body is not well-formed JSON:
`response.json()` raises `requests.exceptions.JSONDecodeError`. -/
def malformed200 : HTTPResponse :=
  ⟨200, "OK", false, .error "Expecting value: line 1 column 1 (char 0)", []⟩

/-- C4 counterexample: for a success-status response with a malformed JSON
body, `_request` fails with code `"request_failed"` — not `"parse_error"` as
the claim states.  (The decode error is a `requests.RequestException`, so it
is retried and then reported by the generic exhausted-retries `raise`.) -/
theorem malformed_json_code_counterexample :
    raisedCode (runRequest 2 (fun _ => .resp malformed200)).result
        = some (.str "request_failed")
      ∧ raisedCode (runRequest 2 (fun _ => .resp malformed200)).result
        ≠ some (.str "parse_error") := by
  constructor
  · rfl
  · intro h
    rw [show raisedCode (runRequest 2 (fun _ => .resp malformed200)).result
          = some (.str "request_failed") from rfl] at h
    simp at h

/-- C4 (amended): for every request whose attempts all receive a
success-status response with a non-empty malformed JSON body, `_request`
fails with an `AIAutoNewsException` whose code is `"request_failed"` and
whose message is the JSON decode error of the last attempt; no other
exception type reaches the caller. -/
theorem malformed_json_request_failed (retries : Nat)
    (outcomes : Nat → AttemptOutcome) (h1 : 1 ≤ retries)
    (hmal : ∀ i, i < retries → ∃ r, outcomes i = .resp r ∧ r.status < 400
        ∧ r.contentEmpty = false ∧ ∃ m, r.jsonBody = .error m) :
    ∃ m, (runRequest retries outcomes).result
      = .error (.clientError
          { message := .str m, code := .str "request_failed"
            details := .fromExc (.jsonDecode m) }) := by
  have key : ∀ i, i < retries →
      ∃ m, attemptCaughtNoBreak (outcomes i) = some (.jsonDecode m) := by
    intro i hi
    obtain ⟨r, ho, _, hc, m, hj⟩ := hmal i hi
    refine ⟨m, ?_⟩
    unfold attemptCaughtNoBreak runAttempt
    rw [ho]
    simp [parsedData, hc, hj, breakCond]
  obtain ⟨m, hm⟩ := key (retries - 1) (by omega)
  refine ⟨m, ?_⟩
  have := runRequest_exhaust retries outcomes (.jsonDecode m) h1
    (fun i hi => by obtain ⟨m', hm'⟩ := key i hi; rw [hm']; rfl) hm
  simpa [CaughtErr.toStr] using this

theorem malformed_json_request_failed_witness :
    ∃ m, (runRequest 2 (fun _ => .resp malformed200)).result
      = .error (.clientError
          { message := .str m, code := .str "request_failed"
            details := .fromExc (.jsonDecode m) }) :=
  malformed_json_request_failed 2 _ (by decide)
    (fun i _ => ⟨malformed200, rfl, by decide, rfl,
      "Expecting value: line 1 column 1 (char 0)", rfl⟩)

/-- Python `d.get(key, default)` on an actual dict never raises; this is the value
it returns. -/
def dictGetD (fields : List (String × Json)) (key : String) (default : Json) : Json :=
  match fields.find? (fun p => p.1 == key) with
  | some p => p.2
  | none => default

theorem pyGet_obj (fields : List (String × Json)) (key : String) (default : Json) :
    pyGet (.obj fields) key default = .ok (dictGetD fields key default) := by
  unfold pyGet dictGetD
  cases h : fields.find? (fun p => p.1 == key) <;> simp [h]

/-- C5 counterexample: on a 200 response carrying the header
`x-ratelimit-remaining: abc`, building the envelope metadata raises
`ValueError` (from `int("abc")`), so it does not default to 0 and the caller
crashes with a non-`AIAutoNewsException` exception. -/
theorem metadata_nonint_header_counterexample :
    (runRequest 1 (fun _ =>
        .resp ⟨200, "OK", true, .ok .null, [("x-ratelimit-remaining", "abc")]⟩)).result
      = .error (.valueError (pyIntErrMsg "abc")) := rfl

/-- C5 (amended): for a successful response whose body parses to a dict, if
the headers `x-ratelimit-remaining`, `x-request-id` and `x-ratelimit-reset`
are all absent, the envelope is built without raising and its metadata
defaults are `remaining = 0`, `request_id = ""`, `reset = ""`; but a present
non-integer `x-ratelimit-remaining` makes `int()` raise `ValueError`. -/
theorem metadata_defaults (retries : Nat) (outcomes : Nat → AttemptOutcome)
    (r : HTTPResponse) (fields : List (String × Json)) (h1 : 1 ≤ retries)
    (h0 : outcomes 0 = .resp r) (hok : r.status < 400)
    (hd : parsedData r = .ok (.obj fields))
    (hrem : headerGet r.headers "x-ratelimit-remaining" = none)
    (hrid : headerGet r.headers "x-request-id" = none)
    (hres : headerGet r.headers "x-ratelimit-reset" = none) :
    runRequest retries outcomes
      = ⟨.ok { success := true
               data := some (dictGetD fields "data" (.obj fields)), error := none
               metadata := some { request_id := ""
                                  rate_limit := { remaining := 0, reset := "" } } },
          1, []⟩ := by
  apply runRequest_success retries outcomes _ h1
  rw [h0]
  unfold runAttempt
  simp [hd, hok, rateLimitRemaining, hrem, hrid, hres, pyGet_obj]

theorem metadata_defaults_witness :
    runRequest 1 (fun _ => .resp ⟨200, "OK", true, .ok .null, []⟩)
      = ⟨.ok { success := true, data := some (dictGetD [] "data" (.obj []))
               error := none
               metadata := some { request_id := ""
                                  rate_limit := { remaining := 0, reset := "" } } },
          1, []⟩ :=
  metadata_defaults 1 _ ⟨200, "OK", true, .ok .null, []⟩ [] (by decide) rfl
    (by decide) rfl rfl rfl rfl

theorem runAttempt_success_inv {o : AttemptOutcome} {r : APIResponse}
    (h : runAttempt o = .success r) :
    r.success = true ∧ r.error = none ∧ r.metadata.isSome := by
  unfold runAttempt at h
  repeat' split at h
  all_goals first
    | (cases h; exact ⟨rfl, rfl, rfl⟩)
    | exact absurd h (by simp)

theorem requestGo_ok_inv (retries : Nat) (outcomes : Nat → AttemptOutcome) :
    ∀ (fuel attempt : Nat) (last : Option CaughtErr) (sleeps : List Nat)
      (resp : APIResponse),
      (requestGo retries outcomes attempt fuel last sleeps).result = .ok resp →
      resp.success = true ∧ resp.error = none ∧ resp.metadata.isSome := by
  intro fuel
  induction fuel with
  | zero =>
    intro attempt last sleeps resp h
    unfold requestGo at h
    exact absurd h (by simp)
  | succ fuel ih =>
    intro attempt last sleeps resp h
    unfold requestGo at h
    rcases ha : runAttempt (outcomes attempt) with r | e | e <;> rw [ha] at h
    · simp at h
      subst h
      exact runAttempt_success_inv ha
    · by_cases hb : breakCond e = true
      · simp [hb] at h
      · simp only [hb, if_false, Bool.false_eq_true] at h
        exact ih (attempt + 1) (some e) _ resp h
    · exact absurd h (by simp)

/-- C9: every envelope `_request` returns has `success = true`,
`error = None` and a present `metadata`; failures are only ever signalled by
raising, never by a returned envelope. -/
theorem returned_envelope_invariant (retries : Nat)
    (outcomes : Nat → AttemptOutcome) (resp : APIResponse)
    (h : (runRequest retries outcomes).result = .ok resp) :
    resp.success = true ∧ resp.error = none ∧ resp.metadata.isSome :=
  requestGo_ok_inv retries outcomes retries 0 none [] resp h

theorem returned_envelope_invariant_witness :
    (APIResponse.mk true (some (.obj [])) none
        (some { request_id := "", rate_limit := { remaining := 0, reset := "" } })).success = true
    ∧ (APIResponse.mk true (some (.obj [])) none
        (some { request_id := "", rate_limit := { remaining := 0, reset := "" } })).error = none
    ∧ (APIResponse.mk true (some (.obj [])) none
        (some { request_id := "", rate_limit := { remaining := 0, reset := "" } })).metadata.isSome :=
  returned_envelope_invariant 1 (fun _ => .resp ⟨200, "OK", true, .ok .null, []⟩) _ rfl

/-- C7 counterexample: a caller-observable failure that is not an
`AIAutoNewsException`: on a 200 response whose `data` lacks the required
`Post` fields, `Posts.get` itself raises `TypeError` from `Post(**data)`. -/
theorem resource_module_typeerror_counterexample :
    postsGetCall 1 (fun _ =>
        .resp ⟨200, "OK", false, .ok (.obj [("data", .obj [("id", .str "p1")])]), []⟩)
      = .error (.typeError "missing required positional arguments")
    ∧ (PyExc.typeError "missing required positional arguments").isClientError = false :=
  ⟨rfl, rfl⟩

/-- C7 (amended): the resource modules never catch, reinterpret or replace an
executor error — whatever exception `_request` raises propagates unchanged
through `Posts.get`, `Posts.list`, `Generation.create` and the
pass-through modules — but on a success envelope whose data does not match
the expected shape, `Post(**data)` in `Posts`/`Generation.create` raises a
`TypeError` of its own, so not every failure is an `AIAutoNewsException`. -/
theorem errors_propagate_unchanged (retries : Nat)
    (outcomes : Nat → AttemptOutcome) (e : PyExc)
    (h : (runRequest retries outcomes).result = .error e) :
    postsGetCall retries outcomes = .error e
    ∧ postsListCall retries outcomes = .error e
    ∧ generationCreateCall retries outcomes = .error e
    ∧ passthroughCall retries outcomes = .error e := by
  unfold postsGetCall postsListCall generationCreateCall passthroughCall
  rw [h]
  exact ⟨rfl, rfl, rfl, rfl⟩

theorem errors_propagate_unchanged_witness :
    postsGetCall 1 (fun _ => .exc ⟨"timeout", none⟩)
      = .error (finalError (some (.transport "timeout" none)))
    ∧ postsListCall 1 (fun _ => .exc ⟨"timeout", none⟩)
      = .error (finalError (some (.transport "timeout" none)))
    ∧ generationCreateCall 1 (fun _ => .exc ⟨"timeout", none⟩)
      = .error (finalError (some (.transport "timeout" none)))
    ∧ passthroughCall 1 (fun _ => .exc ⟨"timeout", none⟩)
      = .error (finalError (some (.transport "timeout" none))) :=
  errors_propagate_unchanged 1 _ _ rfl

/-- C8: with all optional arguments unset, each resource-module call sends
only its required fields — no null or empty placeholders — and
`Posts.list(category="tech")` sends `category=tech` while omitting
`published`. -/
theorem omitted_optionals_not_sent :
    (∀ p l, postsListParams p l none none = [("page", .num p), ("limit", .num l)])
    ∧ (∀ q l, postsSearchParams q l none = [("q", .str q), ("limit", .num l)])
    ∧ (∀ t ct, generationCreateBody t ct none none none none
        = [("topic", .str t), ("type", .str ct.value)])
    ∧ analyticsUsageParams none none none = []
    ∧ (∀ n, apiKeysCreateBody n none none = [("name", .str n)])
    ∧ (∀ u ev, webhooksCreateBody u ev none
        = [("url", .str u), ("events", .arr (ev.map Json.str))])
    ∧ (∀ p l, postsListParams p l (some "tech") none
        = [("page", .num p), ("limit", .num l), ("category", .str "tech")])
    ∧ (∀ p l, "published" ∉ (postsListParams p l (some "tech") none).map Prod.fst) := by
  refine ⟨fun p l => rfl, fun q l => rfl, fun t ct => rfl, rfl, fun n => rfl,
    fun u ev => rfl, fun p l => rfl, fun p l => ?_⟩
  simp [postsListParams, truthyStr]

/-- C10: optional arguments tested by Python truthiness are dropped when
provided but falsy — `Generation.create` with `target_length=0` or
`tone=""` builds the same body as leaving them unset, and `Posts.list`
with `category=""` the same params as leaving it unset — while
`published=False`, tested with `is not None`, is kept on the wire. -/
theorem falsy_optionals_omitted :
    (∀ t ct u tone aud, generationCreateBody t ct u (some 0) tone aud
        = generationCreateBody t ct u none tone aud)
    ∧ (∀ t ct u tl aud, generationCreateBody t ct u tl (some "") aud
        = generationCreateBody t ct u tl none aud)
    ∧ (∀ p l pub, postsListParams p l (some "") pub = postsListParams p l none pub)
    ∧ (∀ p l c, postsListParams p l c (some false)
        = postsListParams p l c none ++ [("published", .bool false)]) := by
  refine ⟨fun t ct u tone aud => rfl, fun t ct u tl aud => rfl,
    fun p l pub => rfl, fun p l c => ?_⟩
  simp [postsListParams]

theorem hexChar_lt_128 : ∀ n, n < 16 → (hexChar n).toNat < 128 := by decide

theorem sha256_bytes_lt_256 (msg : List Nat) : ∀ b ∈ sha256 msg, b < 256 := by
  intro b hb
  unfold sha256 at hb
  simp only [List.mem_flatMap] at hb
  obtain ⟨w, _, hbw⟩ := hb
  unfold beBytes at hbw
  simp only [List.mem_map] at hbw
  obtain ⟨i, _, rfl⟩ := hbw
  exact Nat.mod_lt _ (by norm_num)

theorem hexDigest_ascii (bytes : List Nat) (hb : ∀ b ∈ bytes, b < 256) :
    isAsciiString (hexDigest bytes) = true := by
  unfold isAsciiString hexDigest
  simp only [List.all_eq_true, List.mem_flatMap, List.mem_cons,
    List.mem_singleton, List.not_mem_nil, or_false, decide_eq_true_eq]
  rintro c ⟨b, hbm, rfl | rfl⟩
  · exact hexChar_lt_128 _ (Nat.div_lt_iff_lt_mul (by norm_num) |>.mpr (hb b hbm))
  · exact hexChar_lt_128 _ (Nat.mod_lt _ (by norm_num))

theorem expectedSignature_ascii (payload secret : String) :
    isAsciiString (expectedSignature payload secret) = true :=
  hexDigest_ascii _ (sha256_bytes_lt_256 _)

/-- The correct signature for payload `"abc"` and secret `"s"`. -/
def demoSig : String :=
  "47d920ed90784dc5eae635bfd0824f612d05f09f9a47f60390de873ad37e546b"

/-- The string `demoSig` with bit 0 of its first character flipped (`'4'` → `'5'`):
still ASCII. -/
def demoSigFlipLow : String :=
  "57d920ed90784dc5eae635bfd0824f612d05f09f9a47f60390de873ad37e546b"

/-- The string `demoSig` with bit 7 of its first character set (`'4'` → `'´'`, U+00B4):
no longer ASCII. -/
def demoSigFlipHigh : String :=
  "´7d920ed90784dc5eae635bfd0824f612d05f09f9a47f60390de873ad37e546b"

/-- C2 counterexample: `verify_webhook_signature` does not return `False`
for every single-bit mutation of the signature: `demoSigFlipHigh` differs
from the valid `demoSig` in exactly one bit of one character, yet
`hmac.compare_digest` raises `TypeError` on it (non-ASCII string) instead of
returning `False`. -/
theorem verify_mutation_typeerror_counterexample :
    verify_webhook_signature "abc" demoSig "s" = .ok true
    ∧ (demoSigFlipHigh.data.getD 0 ' ').toNat
        ^^^ (demoSig.data.getD 0 ' ').toNat = 128
    ∧ demoSigFlipHigh.data.drop 1 = demoSig.data.drop 1
    ∧ verify_webhook_signature "abc" demoSigFlipHigh "s"
        = .error (.typeError
            "comparing strings with non-ASCII characters is not supported") :=
  ⟨rfl, by decide, rfl, rfl⟩

/-- C2 (amended): `verify_webhook_signature(payload, signature, secret)`
returns `True` iff `signature` equals the hex HMAC-SHA256 of `payload` keyed
by `secret`; for an ASCII `signature` it returns exactly the equality test
(hence `False` on every ASCII-preserving mutation), and at the demonstrated
inputs a single-bit mutation of the payload (`"abc"`→`"abb"`), of the secret
(`"s"`→`"r"`), or of the signature within ASCII (`'4'`→`'5'`) makes it
return `False`.  (A signature mutation that sets a character's high bit
instead raises `TypeError`; see the counterexample.) -/
theorem webhook_signature_verification :
    (∀ payload signature secret,
      verify_webhook_signature payload signature secret = .ok true
        ↔ signature = expectedSignature payload secret)
    ∧ (∀ payload signature secret, isAsciiString signature = true →
        verify_webhook_signature payload signature secret
          = .ok (signature == expectedSignature payload secret))
    ∧ verify_webhook_signature "abc" demoSig "s" = .ok true
    ∧ ('c'.toNat ^^^ 'b'.toNat = 1
        ∧ verify_webhook_signature "abb" demoSig "s" = .ok false)
    ∧ ('s'.toNat ^^^ 'r'.toNat = 1
        ∧ verify_webhook_signature "abc" demoSig "r" = .ok false)
    ∧ ((demoSigFlipLow.data.getD 0 ' ').toNat
          ^^^ (demoSig.data.getD 0 ' ').toNat = 1
        ∧ demoSigFlipLow.data.drop 1 = demoSig.data.drop 1
        ∧ verify_webhook_signature "abc" demoSigFlipLow "s" = .ok false) := by
  refine ⟨fun payload signature secret => ?_, fun payload signature secret ha => ?_,
    rfl, ⟨by decide, rfl⟩, ⟨by decide, rfl⟩, ⟨by decide, rfl, rfl⟩⟩
  · unfold verify_webhook_signature compareDigest
    by_cases ha : isAsciiString signature = true
    · simp [ha, expectedSignature_ascii]
    · simp only [ha, expectedSignature_ascii, Bool.false_and, if_false]
      constructor
      · intro h
        exact absurd h (by simp)
      · intro h
        subst h
        exact absurd (expectedSignature_ascii payload secret) ha
  · unfold verify_webhook_signature compareDigest
    simp [ha, expectedSignature_ascii]

theorem webhook_signature_verification_witness :
    verify_webhook_signature "abc" demoSig "s"
      = .ok (demoSig == expectedSignature "abc" "s") :=
  webhook_signature_verification.2.1 "abc" demoSig "s" rfl
